import Mathlib

/-!
Verification of the ru402 client-side codec layer (Rust `books` example):
vector codec, reply decoder, entity model and query builders, shallowly
embedded in Lean 4.

Modelling conventions:
* machine integers are `Nat`/`Int` with explicit wrap-around (`% 2 ^ w`)
  where the source can overflow;
* an `f32` is modelled by its 32-bit IEEE-754 pattern (a `Nat < 2 ^ 32`)
  wherever byte-exactness is what matters (the vector codec, the stored
  `Book.embedding`), and by the exact rational value of its decimal
  numeral where only parse semantics matter (reply `score`s); no claim
  mixes the two views;
* fallible Rust code returns `Except`/`Option`; a Rust `unwrap` of a
  missing value is modelled by the `panic` constructor of `DecodeResult`.
-/

/-! ## Vector codec (examples/books.rs, `fn encode`)

The source iterates the `f32` vector and appends each element's 4-byte
little-endian IEEE-754 pattern (`write_f32::<LittleEndian>`, i.e. the bytes
of `f.to_bits()` least-significant first).  We represent each `f32` by its
bit pattern `w : Nat` (`w < 2 ^ 32`); the emitted bytes are then exactly
`[w % 256, w / 256 % 256, w / 65536 % 256, w / 16777216 % 256]`. -/
def encode_f32 (w : Nat) : List Nat :=
  [w % 256, w / 256 % 256, w / 65536 % 256, w / 16777216 % 256]

/-- `fn encode(fs: Vec<f32>) -> Vec<u8>`: concatenation of the little-endian
4-byte patterns of the elements, in input order, with no separators. -/
def encode (fs : List Nat) : List Nat :=
  fs.flatMap encode_f32

/-- The inverse reinterpretation described by the spec (performed internally
by the receiving engine, not present in `src/`): read the byte stream four
bytes at a time, little-endian, recovering one 32-bit pattern per group. -/
def decode : List Nat → List Nat
  | b0 :: b1 :: b2 :: b3 :: rest =>
      (b0 + 256 * b1 + 65536 * b2 + 16777216 * b3) :: decode rest
  | _ => []

theorem decode_encode_f32_cons (w : Nat) (h : w < 2 ^ 32) (rest : List Nat) :
    decode (encode_f32 w ++ rest) = w :: decode rest := by
  simp only [encode_f32, List.cons_append, List.nil_append, decode]
  congr 1
  omega

/-- C1: `encode` emits exactly `4 * length v` bytes — each element's 4-byte
little-endian IEEE-754 pattern in input order with no separators — and
reinterpreting the output as little-endian 32-bit words recovers the input
bit-for-bit (`decode (encode v) = v`) whenever every element is a 32-bit
pattern. -/
theorem c1_encode_length_and_roundtrip (fs : List Nat) :
    (encode fs).length = 4 * fs.length ∧
      ((∀ w ∈ fs, w < 2 ^ 32) → decode (encode fs) = fs) := by
  induction fs with
  | nil => exact ⟨rfl, fun _ => rfl⟩
  | cons w t ih =>
      constructor
      · simp only [encode, List.flatMap_cons, List.length_append, List.length_cons]
        have := ih.1
        simp only [encode] at this
        simp [encode_f32, this]
        ring
      · intro h
        have hw : w < 2 ^ 32 := h w (List.mem_cons_self w t)
        have ht : ∀ x ∈ t, x < 2 ^ 32 := fun x hx => h x (List.mem_cons_of_mem w hx)
        simp only [encode, List.flatMap_cons]
        rw [decode_encode_f32_cons w hw]
        have := ih.2 ht
        simp only [encode] at this
        rw [this]

/-- Witness for C1 at a concrete vector (the patterns of 1.0f32 and -2.5f32). -/
theorem c1_encode_length_and_roundtrip_witness :
    (encode [1065353216, 3223322624]).length = 4 * 2 ∧
      decode (encode [1065353216, 3223322624]) = [1065353216, 3223322624] := by
  have h := c1_encode_length_and_roundtrip [1065353216, 3223322624]
  exact ⟨h.1, h.2 (by decide)⟩

/-! ## The generic reply value (redis::Value)

The reply of the engine is a schema-less recursive value.  The variants
mirror `redis::Value` (redis-rs 0.23): `Nil`, `Int(i64)`, `Data(bytes)`,
`Bulk(Vec<Value>)`, `Status(String)`, `Okay`.  Byte payloads (`Data`) are
modelled as `String`: no claim involves non-UTF-8 payloads. -/
inductive RValue where
  | nil
  | int (i : Int)
  | data (s : String)
  | bulk (items : List RValue)
  | status (s : String)
  | okay

/-- `redis::Value::as_sequence`: only a `Bulk` reply is a sequence. -/
def as_sequence : RValue → Option (List RValue)
  | .bulk items => some items
  | _ => none

/-- The three-way outcome of a decoder in the source: a value, a
`RedisError` propagated by `?` (carried here as a message), or a Rust
panic from `unwrap()` on a missing value. -/
inductive DecodeResult (α : Type) where
  | ok (value : α)
  | err (msg : String)
  | panic
  deriving DecidableEq

/-! ## Scalar coercions (redis-rs `from_redis_value` impls)

Only the behaviour the decoder exercises is modelled; error messages of the
redis crate are abbreviated. -/

/-- Digit run to its value; `none` unless non-empty and all decimal digits. -/
def digits_val : List Char → Option Nat
  | [] => none
  | cs =>
      if cs.all Char.isDigit then
        some (cs.foldl (fun acc c => acc * 10 + (c.toNat - 48)) 0)
      else none

/-- The fragment of Rust's `f32` `FromStr` grammar the replies use: an
optionally signed decimal numeral with an optional fractional part, read as
its exact rational value.  Exponents, `inf` and `nan` spellings, and the
rounding of the rational to binary32 are not modelled: no claim depends on
them. -/
def parse_f32_string (s : String) : Option Rat :=
  let signed : Int × List Char :=
    match s.toList with
    | '-' :: r => (-1, r)
    | '+' :: r => (1, r)
    | r => (1, r)
  let ip := (signed.2.span (fun c => c != '.')).1
  match (signed.2.span (fun c => c != '.')).2 with
  | [] => (digits_val ip).map (fun n => (signed.1 * n : Int))
  | _ :: fp =>
      match (if ip.isEmpty then some 0 else digits_val ip),
            (if fp.isEmpty then some 0 else digits_val fp) with
      | some i, some f =>
          if ip.isEmpty ∧ fp.isEmpty then none
          else some ((signed.1 : Rat) * ((i : Rat) + (f : Rat) / (10 : Rat) ^ fp.length))
      | _, _ => none

/-- `from_redis_value::<u64>`: an `Int` reply is cast with `as u64`
(two's-complement wrap), a string reply is parsed. -/
def to_u64_coerce : RValue → Option Nat
  | .int i => some ((i % (2 ^ 64 : Int)).toNat)
  | .data s =>
      match s.toNat? with
      | some n => if n < 2 ^ 64 then some n else none
      | none => none
  | .status s =>
      match s.toNat? with
      | some n => if n < 2 ^ 64 then some n else none
      | none => none
  | _ => none

/-- `from_redis_value::<String>`: `Data`, `Status` and `Okay` replies are
string-compatible; everything else is a type error. -/
def to_string_coerce : RValue → Option String
  | .data s => some s
  | .status s => some s
  | .okay => some "OK"
  | _ => none

/-- `from_redis_value::<f32>`: an `Int` reply is cast, a string reply is
parsed (value modelled as an exact rational, see `parse_f32_string`). -/
def to_f32_coerce : RValue → Option Rat
  | .int i => some (i : Rat)
  | .data s => parse_f32_string s
  | .status s => parse_f32_string s
  | _ => none

/-! ## Entity model of search output (src/book.rs) -/

/-- `struct Recommendation { id, score, title }`; `score: f32` is modelled
by the exact rational value of the reply's numeral. -/
structure Recommendation where
  id : String
  score : Rat
  title : String
  deriving DecidableEq

/-- `struct Recommendations { count: u64, recommendations }`. -/
structure Recommendations where
  count : Nat
  recommendations : List Recommendation
  deriving DecidableEq

/-! ## Reply decoder (src/book.rs, `Recommendations::from_redis_value`) -/

/-- The inner field-list loop
`while let (Some(k), Some(v)) = (values.next(), values.next())`:
consumes key/value pairs, overwriting the accumulated `title`/`score` on the
recognised keys and ignoring any other key; a trailing key with no value
ends the loop without being coerced. -/
def decode_fields : List RValue → String → Rat → DecodeResult (String × Rat)
  | k :: v :: rest, title, score =>
      match to_string_coerce k with
      | none => .err "invalid key"
      | some key =>
          if key = "title" then
            match to_string_coerce v with
            | none => .err "invalid title"
            | some t => decode_fields rest t score
          else if key = "score" then
            match to_f32_coerce v with
            | none => .err "invalid score"
            | some sc => decode_fields rest title sc
          else decode_fields rest title score
  | _, title, score => .ok (title, score)

/-- The outer loop
`while let (Some(id), Some(values)) = (iter.next(), iter.next())`:
consumes (identifier, field-list) pairs in order; a trailing identifier with
no field-list ends the loop without being coerced.  `values.as_sequence()
.unwrap()` panics when a field-list reply is not a sequence. -/
def decode_pairs : List RValue → DecodeResult (List Recommendation)
  | idv :: flv :: rest =>
      match to_string_coerce idv with
      | none => .err "invalid id"
      | some id =>
          match as_sequence flv with
          | none => .panic
          | some fl =>
              match decode_fields fl "" 0 with
              | .ok (title, score) =>
                  match decode_pairs rest with
                  | .ok recs => .ok (⟨id, score, title⟩ :: recs)
                  | .err e => .err e
                  | .panic => .panic
              | .err e => .err e
              | .panic => .panic
  | _ => .ok []

/-- `Recommendations::from_redis_value`: `v.as_sequence().unwrap()` (panic on
a non-sequence reply), `iter.next().unwrap()` for the count (panic on an
empty sequence), count coerced to `u64` by `?`, then the pair loop. -/
def Recommendations.from_redis_value (v : RValue) : DecodeResult Recommendations :=
  match as_sequence v with
  | none => .panic
  | some result =>
      match result with
      | [] => .panic
      | first :: rest =>
          match to_u64_coerce first with
          | none => .err "invalid count"
          | some count =>
              match decode_pairs rest with
              | .ok recs => .ok ⟨count, recs⟩
              | .err e => .err e
              | .panic => .panic

/-- The canonical reply entry for one search hit `(id, title, score)`:
the identifier followed by the field-list `["title", t, "score", sc]`. -/
def rec_entry (r : String × String × String) : List RValue :=
  [.data r.1, .bulk [.data "title", .data r.2.1, .data "score", .data r.2.2]]

/-- A whole well-formed reply: `[count, id_1, fields_1, ..., id_n, fields_n]`. -/
def mk_reply (cnt : Nat) (recs : List (String × String × String)) : RValue :=
  .bulk (.int (Int.ofNat cnt) :: recs.flatMap rec_entry)

/-- The `Recommendation` a well-formed entry decodes to. -/
def decoded_entry (r : String × String × String) : Recommendation :=
  ⟨r.1, (parse_f32_string r.2.2).getD 0, r.2.1⟩

theorem decode_pairs_entries (recs : List (String × String × String))
    (rest : List RValue) (h : ∀ r ∈ recs, (parse_f32_string r.2.2).isSome) :
    decode_pairs (recs.flatMap rec_entry ++ rest) =
      match decode_pairs rest with
      | .ok l => .ok (recs.map decoded_entry ++ l)
      | .err e => .err e
      | .panic => .panic := by
  induction recs with
  | nil =>
      simp only [List.flatMap_nil, List.nil_append, List.map_nil]
      cases decode_pairs rest <;> simp
  | cons r t ih =>
      obtain ⟨q, hq⟩ := Option.isSome_iff_exists.mp (h r (List.mem_cons_self r t))
      have ht : ∀ x ∈ t, (parse_f32_string x.2.2).isSome :=
        fun x hx => h x (List.mem_cons_of_mem r hx)
      simp only [List.flatMap_cons, List.map_cons, List.append_assoc]
      show decode_pairs (.data r.1 :: .bulk [.data "title", .data r.2.1,
      .data "score", .data r.2.2] :: (t.flatMap rec_entry ++ rest)) = _
      simp only [decode_pairs, to_string_coerce, as_sequence, decode_fields,
        to_f32_coerce, hq, if_pos rfl, if_neg (by decide : ¬("score" : String) = "title")]
      rw [ih ht]
      cases hrest : decode_pairs rest <;>
        simp [decoded_entry, hq, List.cons_append]

/-- C2: decoding a well-formed flat reply
`[count, id_1, fields_1, ..., id_n, fields_n]` (each field-list pairing
`"title"` and `"score"` with coercible values) yields the count coerced from
the first element — independently of `n` — and the `n` `(id, title, score)`
triples in exactly the reply's encounter order; `count` is never required to
equal the number of recommendations. -/
theorem c2_decode_well_formed_reply (cnt : Nat) (recs : List (String × String × String))
    (hcnt : cnt < 2 ^ 64) (h : ∀ r ∈ recs, (parse_f32_string r.2.2).isSome) :
    Recommendations.from_redis_value (mk_reply cnt recs) =
      .ok ⟨cnt, recs.map decoded_entry⟩ := by
  have hmod : ((Int.ofNat cnt) % (2 ^ 64 : Int)).toNat = cnt := by
    simp only [Int.ofNat_eq_coe]
    rw [Int.emod_eq_of_lt (by omega) (by omega)]
    exact Int.toNat_natCast cnt
  show Recommendations.from_redis_value
      (.bulk (.int (Int.ofNat cnt) :: recs.flatMap rec_entry)) = _
  simp only [Recommendations.from_redis_value, as_sequence, to_u64_coerce, hmod]
  have := decode_pairs_entries recs [] h
  rw [List.append_nil] at this
  rw [this]
  simp [decode_pairs]

/-- Witness for C2 at the spec's example reply: count 2 and the two hits
`("book:9", "T", "0.10")`, `("book:5", "U", "0.20")`, decoded in order. -/
theorem c2_decode_well_formed_reply_witness :
    Recommendations.from_redis_value
        (mk_reply 2 [("book:9", "T", "0.10"), ("book:5", "U", "0.20")]) =
      .ok ⟨2, [⟨"book:9", (parse_f32_string "0.10").getD 0, "T"⟩,
               ⟨"book:5", (parse_f32_string "0.20").getD 0, "U"⟩]⟩ :=
  c2_decode_well_formed_reply 2 [("book:9", "T", "0.10"), ("book:5", "U", "0.20")]
    (by norm_num) (by decide)

/-- C3 counterexample, at the spec's own example `[1, "book:1", ["title"]]`:
a field-list with an odd number of elements does not fail — the decoder
returns a value (the unmatched fields keep their defaults `""` and `0.0`),
refuting "decoding the reply fails with a decode error rather than
producing a value". -/
theorem c3_counterexample_odd_field_list_succeeds :
    Recommendations.from_redis_value
        (.bulk [.int 1, .data "book:1", .bulk [.data "title"]]) =
      .ok ⟨1, [⟨"book:1", 0, ""⟩]⟩ := by
  decide

/-- C3 amended: a field-list with an odd number of elements is NOT a decode
error — the inner pair loop stops before the trailing key, which is ignored
(never even coerced), and decoding proceeds exactly as if the trailing key
were absent. -/
theorem c3_amended_trailing_key_ignored :
    ∀ (fl : List RValue) (k : RValue) (title : String) (score : Rat),
      fl.length % 2 = 0 →
      decode_fields (fl ++ [k]) title score = decode_fields fl title score
  | [], _, _, _, _ => rfl
  | [_], _, _, _, h => by simp at h
  | a :: b :: rest, k, title, score, h => by
      have hrest : rest.length % 2 = 0 := by
        simp only [List.length_cons] at h
        omega
      simp only [List.cons_append]
      unfold decode_fields
      cases to_string_coerce a with
      | none => rfl
      | some key =>
          simp only
          by_cases hk : key = "title"
          · simp only [if_pos hk]
            cases to_string_coerce b with
            | none => rfl
            | some t => exact c3_amended_trailing_key_ignored rest k t score hrest
          · by_cases hs : key = "score"
            · simp only [if_neg hk, if_pos hs]
              cases to_f32_coerce b with
              | none => rfl
              | some sc =>
                  exact c3_amended_trailing_key_ignored rest k title sc hrest
            · simp only [if_neg hk, if_neg hs]
              exact c3_amended_trailing_key_ignored rest k title score hrest

/-- Witness for the amended C3 at a concrete even field-list and trailing key. -/
theorem c3_amended_trailing_key_ignored_witness :
    decode_fields
        ([.data "title", .data "T", .data "score", .data "0.5"] ++ [.data "genre"])
        "" 0 =
      decode_fields [.data "title", .data "T", .data "score", .data "0.5"] "" 0 :=
  c3_amended_trailing_key_ignored
    [.data "title", .data "T", .data "score", .data "0.5"]
    (.data "genre") "" 0 (by decide)

/-- C4 counterexample, at the reply `[1, "book:1"]` (an identifier with no
following field-list): the outer pair loop stops, the trailing identifier is
silently dropped, and decoding returns a value — refuting "decoding the
reply fails with a decode error rather than silently dropping the trailing
identifier". -/
theorem c4_counterexample_trailing_id_dropped :
    Recommendations.from_redis_value (.bulk [.int 1, .data "book:1"]) =
      .ok ⟨1, []⟩ := by
  decide

/-- C4 amended: a reply whose outer sequence ends mid-pair is NOT a decode
error — the trailing identifier is silently dropped (never coerced) and the
decode succeeds with exactly the recommendations of the complete pairs. -/
theorem c4_amended_trailing_id_dropped (cnt : Nat)
    (recs : List (String × String × String)) (idv : RValue)
    (hcnt : cnt < 2 ^ 64) (h : ∀ r ∈ recs, (parse_f32_string r.2.2).isSome) :
    Recommendations.from_redis_value
        (.bulk (.int (Int.ofNat cnt) :: (recs.flatMap rec_entry ++ [idv]))) =
      .ok ⟨cnt, recs.map decoded_entry⟩ := by
  have hmod : ((Int.ofNat cnt) % (2 ^ 64 : Int)).toNat = cnt := by
    simp only [Int.ofNat_eq_coe]
    rw [Int.emod_eq_of_lt (by omega) (by omega)]
    exact Int.toNat_natCast cnt
  simp only [Recommendations.from_redis_value, as_sequence, to_u64_coerce, hmod]
  rw [decode_pairs_entries recs [idv] h]
  simp [decode_pairs]

/-- Witness for the amended C4: one complete pair followed by a dangling
identifier decodes to just the complete pair. -/
theorem c4_amended_trailing_id_dropped_witness :
    Recommendations.from_redis_value
        (.bulk (.int (Int.ofNat 7) ::
          ([("book:9", "T", "0.10")].flatMap rec_entry ++ [.data "book:5"]))) =
      .ok ⟨7, [("book:9", "T", "0.10")].map decoded_entry⟩ :=
  c4_amended_trailing_id_dropped 7 [("book:9", "T", "0.10")] (.data "book:5")
    (by norm_num) (by decide)

/-- C10: decoding a reply that is not a sequence, or the empty top-level
sequence (no count element), panics (`unwrap` on `None`) instead of
returning a decode error. -/
theorem c10_decode_panics_on_shape (v : RValue) :
    (as_sequence v = none → Recommendations.from_redis_value v = .panic) ∧
      Recommendations.from_redis_value (.bulk []) = .panic := by
  refine ⟨fun h => ?_, rfl⟩
  simp [Recommendations.from_redis_value, h]

/-- Witness for C10 at the integer reply `0` (not a sequence). -/
theorem c10_decode_panics_on_shape_witness :
    Recommendations.from_redis_value (.int 0) = .panic ∧
      Recommendations.from_redis_value (.bulk []) = .panic :=
  ⟨(c10_decode_panics_on_shape (.int 0)).1 rfl,
   (c10_decode_panics_on_shape (.int 0)).2⟩

/-! ## Entity model enumerations (src/book.rs, `Edition`, `InventoryStatus`) -/

/-- `char::to_ascii_lowercase`: ASCII letters `A`-`Z` are shifted to
`a`-`z`; every other character is unchanged. -/
def ascii_lower_char (c : Char) : Char :=
  if 65 ≤ c.toNat ∧ c.toNat ≤ 90 then Char.ofNat (c.toNat + 32) else c

/-- `str::to_ascii_lowercase` (written over the character list so that it
evaluates by kernel reduction). -/
def to_ascii_lowercase (s : String) : String :=
  ⟨s.data.map ascii_lower_char⟩

deriving instance DecidableEq for Except

/-- `enum Edition { English, Spanish, French }`. -/
inductive Edition where
  | English
  | Spanish
  | French
  deriving DecidableEq

/-- `Edition::from_str`: lower-case the token, match the fixed table, else
fail with a message built from the LOWER-CASED token (the binder `e` in the
source is bound after `to_ascii_lowercase`). -/
def Edition.from_str (s : String) : Except String Edition :=
  match to_ascii_lowercase s with
  | "english" => .ok .English
  | "spanish" => .ok .Spanish
  | "french" => .ok .French
  | e => .error ("Unknown edition: " ++ e)

/-- `enum InventoryStatus { OnLoan, Available, Maintenance }`. -/
inductive InventoryStatus where
  | OnLoan
  | Available
  | Maintenance
  deriving DecidableEq

/-- `InventoryStatus::from_str`: as for `Edition`, with the extra
`"onloan"` spelling mapped to `OnLoan` ("need this for reading from
redis"). -/
def InventoryStatus.from_str (s : String) : Except String InventoryStatus :=
  match to_ascii_lowercase s with
  | "on_loan" => .ok .OnLoan
  | "onloan" => .ok .OnLoan
  | "available" => .ok .Available
  | "maintenance" => .ok .Maintenance
  | e => .error ("Unknown inventory status: " ++ e)

/-- C6 counterexample, at the token `"ITALIAN"`: the unrecognized-variant
error carries the LOWER-CASED token, not the original token as the claim
states. -/
theorem c6_counterexample_error_carries_lowercased :
    Edition.from_str "ITALIAN" = .error ("Unknown edition: " ++ "italian") ∧
      Edition.from_str "ITALIAN" ≠ .error ("Unknown edition: " ++ "ITALIAN") := by
  decide

/-- C6 amended: both parsers lower-case the input and match the fixed table,
so any two tokens with the same lower-casing parse alike (in particular all
case variants of a recognized spelling parse to the same variant);
`"on_loan"` and `"onloan"` both parse to the identical `OnLoan` variant; and
a token outside the table fails with an unrecognized-variant error carrying
the LOWER-CASED token. -/
theorem c6_amended_casefold_table_parse :
    (∀ s t : String, to_ascii_lowercase s = to_ascii_lowercase t →
        Edition.from_str s = Edition.from_str t) ∧
    (∀ s t : String, to_ascii_lowercase s = to_ascii_lowercase t →
        InventoryStatus.from_str s = InventoryStatus.from_str t) ∧
    InventoryStatus.from_str "on_loan" = .ok .OnLoan ∧
    InventoryStatus.from_str "onloan" = .ok .OnLoan ∧
    (∀ s : String,
        to_ascii_lowercase s ∉ ["english", "spanish", "french"] →
        Edition.from_str s = .error ("Unknown edition: " ++ to_ascii_lowercase s)) ∧
    (∀ s : String,
        to_ascii_lowercase s ∉ ["on_loan", "onloan", "available", "maintenance"] →
        InventoryStatus.from_str s =
          .error ("Unknown inventory status: " ++ to_ascii_lowercase s)) := by
  refine ⟨fun s t h => ?_, fun s t h => ?_, by decide, by decide,
    fun s h => ?_, fun s h => ?_⟩
  · unfold Edition.from_str
    rw [h]
  · unfold InventoryStatus.from_str
    rw [h]
  · simp only [List.mem_cons, List.not_mem_nil, or_false, not_or] at h
    unfold Edition.from_str
    split
    next he => exact absurd he h.1
    next he => exact absurd he h.2.1
    next he => exact absurd he h.2.2
    next => rfl
  · simp only [List.mem_cons, List.not_mem_nil, or_false, not_or] at h
    unfold InventoryStatus.from_str
    split
    next he => exact absurd he h.1
    next he => exact absurd he h.2.1
    next he => exact absurd he h.2.2.1
    next he => exact absurd he h.2.2.2
    next => rfl

/-- Witness for the amended C6: concrete case variants of `"English"` parse
alike, and `"lost"` fails with the lower-cased-token error. -/
theorem c6_amended_casefold_table_parse_witness :
    Edition.from_str "ENGLISH" = Edition.from_str "english" ∧
      InventoryStatus.from_str "On_Loan" = InventoryStatus.from_str "on_loan" ∧
      InventoryStatus.from_str "on_loan" = .ok .OnLoan ∧
      InventoryStatus.from_str "lost" =
        .error ("Unknown inventory status: " ++ to_ascii_lowercase "lost") :=
  ⟨c6_amended_casefold_table_parse.1 "ENGLISH" "english" (by decide),
   c6_amended_casefold_table_parse.2.1 "On_Loan" "on_loan" (by decide),
   c6_amended_casefold_table_parse.2.2.1,
   c6_amended_casefold_table_parse.2.2.2.2.2 "lost" (by decide)⟩

/-! ## Stored-record JSON model (src/book.rs, `Book` and serde decode)

`Book::from_redis_value` reads the JSON text out of the reply
(`FromRedisValue for String`) and feeds it to
`serde_json::from_str::<Vec<Book>>`.  The text-to-value stage is standard
JSON parsing and carries no claim; the decode is modelled from the parsed
JSON value on.  JSON numbers are carried as exact rationals. -/
inductive Json where
  | null
  | bool (b : Bool)
  | num (q : Rat)
  | str (s : String)
  | arr (elems : List Json)
  | obj (fields : List (String × Json))

/-- Fuel-bounded search for the largest exponent `e ∈ [-150, 127]` with
`2 ^ e ≤ a`. -/
def find_exp_aux : Nat → Int → Rat → Int
  | 0, e, _ => e
  | n + 1, e, a => if (2 : Rat) ^ e ≤ a then e else find_exp_aux n (e - 1) a

/-- The IEEE-754 binary32 pattern of an exactly representable rational
(`some`), `none` otherwise.  A `Book`'s `f32` fields come from serde's own
round-trip of `f32` values, so every number this program stores is exactly
representable; the rounding of other rationals is not modelled, as no claim
observes it. -/
def bits_of_rat (q : Rat) : Option Nat :=
  if q = 0 then some 0
  else
    let sgn : Nat := if q < 0 then 2 ^ 31 else 0
    let a := |q|
    let e := find_exp_aux 278 127 a
    if e < -126 then
      let m := a * (2 : Rat) ^ (149 : Nat)
      if m.den = 1 ∧ 0 < m.num ∧ m.num < 2 ^ 23 then some (sgn + m.num.toNat)
      else none
    else
      let m := a / (2 : Rat) ^ e * (2 : Rat) ^ (23 : Nat)
      if m.den = 1 ∧ 2 ^ 23 ≤ m.num ∧ m.num < 2 ^ 24 then
        some (sgn + (e + 127).toNat * 2 ^ 23 + (m.num.toNat - 2 ^ 23))
      else none

/-- `struct Inventory { status, stock_id }`. -/
structure Inventory where
  status : InventoryStatus
  stock_id : String
  deriving DecidableEq

/-- `struct Metrics { rating_votes: u32, score: f32 }`; the `f32` is held as
its bit pattern. -/
structure Metrics where
  rating_votes : Nat
  score : Nat
  deriving DecidableEq

/-- `struct Book`; `embedding: Option<Vec<f32>>` is held as the list of
32-bit patterns, which is what the vector codec consumes. -/
structure Book where
  author : String
  id : String
  description : String
  embedding : Option (List Nat)
  editions : List Edition
  genres : List String
  inventory : List Inventory
  metrics : Metrics
  pages : Nat
  title : String
  url : String
  year_published : Nat
  deriving DecidableEq

/-- First binding of a JSON object field (serde's duplicate-field error is
not modelled; no claim involves duplicate keys). -/
def json_field (fields : List (String × Json)) (name : String) : Option Json :=
  (fields.find? (fun p => p.1 == name)).map (fun p => p.2)

/-- A required struct field; serde fails with "missing field" when absent. -/
def required_field (fields : List (String × Json)) (name : String) :
    Except String Json :=
  match json_field fields name with
  | some j => .ok j
  | none => .error ("missing field " ++ name)

def deserialize_string : Json → Except String String
  | .str s => .ok s
  | _ => .error "invalid type: expected a string"

/-- serde `u32`: an integral JSON number in range. -/
def deserialize_u32 : Json → Except String Nat
  | .num q =>
      if q.den = 1 ∧ 0 ≤ q.num ∧ q.num < 2 ^ 32 then .ok q.num.toNat
      else .error "invalid value: expected u32"
  | _ => .error "invalid type: expected u32"

/-- serde `u16`: an integral JSON number in range. -/
def deserialize_u16 : Json → Except String Nat
  | .num q =>
      if q.den = 1 ∧ 0 ≤ q.num ∧ q.num < 2 ^ 16 then .ok q.num.toNat
      else .error "invalid value: expected u16"
  | _ => .error "invalid type: expected u16"

/-- serde `f32`, yielding the bit pattern (see `bits_of_rat`). -/
def deserialize_f32 : Json → Except String Nat
  | .num q =>
      match bits_of_rat q with
      | some b => .ok b
      | none => .error "unmodelled float value"
  | _ => .error "invalid type: expected f32"

/-- serde `Vec<T>`. -/
def deserialize_list {α : Type} (f : Json → Except String α) :
    Json → Except String (List α)
  | .arr elems => elems.mapM f
  | _ => .error "invalid type: expected a sequence"

/-- The hand-written `Deserialize for Edition`: deserialize a `String`,
then `from_str`, mapping the message through `de::Error::custom`. -/
def deserialize_edition (j : Json) : Except String Edition :=
  deserialize_string j >>= Edition.from_str

/-- The hand-written `Deserialize for InventoryStatus`. -/
def deserialize_inventory_entry_status (j : Json) : Except String InventoryStatus :=
  deserialize_string j >>= InventoryStatus.from_str

def deserialize_inventory : Json → Except String Inventory
  | .obj fields => do
      let status ← required_field fields "status" >>= deserialize_inventory_entry_status
      let stock_id ← required_field fields "stock_id" >>= deserialize_string
      .ok ⟨status, stock_id⟩
  | _ => .error "invalid type: expected a map"

def deserialize_metrics : Json → Except String Metrics
  | .obj fields => do
      let rating_votes ← required_field fields "rating_votes" >>= deserialize_u32
      let score ← required_field fields "score" >>= deserialize_f32
      .ok ⟨rating_votes, score⟩
  | _ => .error "invalid type: expected a map"

/-- Derived `Deserialize for Book`: every field is required except
`embedding` (`Option<Vec<f32>>`), which defaults to `None` when absent and
accepts `null`; unknown fields are ignored (serde's default). -/
def deserialize_book : Json → Except String Book
  | .obj fields => do
      let author ← required_field fields "author" >>= deserialize_string
      let id ← required_field fields "id" >>= deserialize_string
      let description ← required_field fields "description" >>= deserialize_string
      let embedding ←
        match json_field fields "embedding" with
        | none => .ok none
        | some .null => .ok none
        | some j => (deserialize_list deserialize_f32 j).map some
      let editions ← required_field fields "editions" >>=
        deserialize_list deserialize_edition
      let genres ← required_field fields "genres" >>=
        deserialize_list deserialize_string
      let inventory ← required_field fields "inventory" >>=
        deserialize_list deserialize_inventory
      let metrics ← required_field fields "metrics" >>= deserialize_metrics
      let pages ← required_field fields "pages" >>= deserialize_u32
      let title ← required_field fields "title" >>= deserialize_string
      let url ← required_field fields "url" >>= deserialize_string
      let year_published ← required_field fields "year_published" >>= deserialize_u16
      .ok ⟨author, id, description, embedding, editions, genres, inventory,
           metrics, pages, title, url, year_published⟩
  | _ => .error "invalid type: expected a map"

/-- `serde_json::from_str::<Vec<Book>>`: the top-level JSON value must be a
sequence of records. -/
def books_from_json (j : Json) : Except String (List Book) :=
  deserialize_list deserialize_book j

/-- `Book::from_redis_value` from the parsed JSON value on:
`serde_json` errors propagate through `?`; on success the source runs
`books.first().unwrap().clone()` — a panic when the sequence is empty, the
first element otherwise. -/
def Book.from_json_value (j : Json) : DecodeResult Book :=
  match books_from_json j with
  | .error e => .err e
  | .ok books =>
      match books.head? with
      | none => .panic
      | some b => .ok b

theorem mapM_ok_of_forall_ok {α : Type} (f : Json → Except String α) :
    ∀ l : List Json, (∀ x ∈ l, ∃ y, f x = .ok y) → ∃ ys, l.mapM f = .ok ys := by
  intro l h
  induction l with
  | nil => exact ⟨[], rfl⟩
  | cons x xs ih =>
      obtain ⟨y, hy⟩ := h x (List.mem_cons_self x xs)
      obtain ⟨ys, hys⟩ := ih (fun a ha => h a (List.mem_cons_of_mem x ha))
      refine ⟨y :: ys, ?_⟩
      rw [List.mapM_cons, hy, hys]
      rfl

/-- C5 counterexample, at the stored value `[]` (empty sequence): the claim
says this "fails with a decode error", but `books.first().unwrap()` panics
instead of returning an error. -/
theorem c5_counterexample_empty_array_panics :
    Book.from_json_value (.arr []) = .panic ∧
      Book.from_json_value (.arr []) ≠ .err "record not found" :=
  ⟨rfl, fun h => DecodeResult.noConfusion h⟩

/-- C5 amended: the decoder only accepts the sequence form.  A bare record
object (not wrapped in a sequence) fails with a serde type error rather than
being accepted; an empty sequence panics (`first().unwrap()` on `None`)
rather than failing with a "record not found" error; and a sequence with one
OR MORE well-formed records silently yields the FIRST record's `Book` rather
than rejecting an ambiguous result. -/
theorem c5_amended_book_decode_shapes :
    (∀ fields : List (String × Json),
        Book.from_json_value (.obj fields) = .err "invalid type: expected a sequence") ∧
    Book.from_json_value (.arr []) = .panic ∧
    (∀ (j : Json) (js : List Json) (b : Book),
        deserialize_book j = .ok b →
        (∀ x ∈ js, ∃ y, deserialize_book x = .ok y) →
        Book.from_json_value (.arr (j :: js)) = .ok b) := by
  refine ⟨fun fields => rfl, rfl, fun j js b hj hjs => ?_⟩
  obtain ⟨ys, hys⟩ := mapM_ok_of_forall_ok deserialize_book js hjs
  simp only [Book.from_json_value, books_from_json, deserialize_list,
    List.mapM_cons, hj, hys]
  rfl

/-- A well-formed stored record, used to witness the amended C5. -/
def sample_book_json : Json :=
  .obj [("author", .str "Jane Doe"), ("id", .str "1"),
        ("description", .str "a book"),
        ("editions", .arr [.str "english"]),
        ("genres", .arr [.str "fiction"]),
        ("inventory", .arr [.obj [("status", .str "available"),
                                  ("stock_id", .str "1-1")]]),
        ("metrics", .obj [("rating_votes", .num 10), ("score", .num 0)]),
        ("pages", .num 100), ("title", .str "A Book"), ("url", .str "u"),
        ("year_published", .num 2000)]

/-- The `Book` the record above decodes to. -/
def sample_book : Book :=
  ⟨"Jane Doe", "1", "a book", none, [.English], ["fiction"],
   [⟨.Available, "1-1"⟩], ⟨10, 0⟩, 100, "A Book", "u", 2000⟩

/-- Witness for the amended C5: the two-element sequence of well-formed
records decodes to the first record's `Book`. -/
theorem c5_amended_book_decode_shapes_witness :
    Book.from_json_value (.arr [sample_book_json, sample_book_json]) =
      .ok sample_book :=
  c5_amended_book_decode_shapes.2.2 sample_book_json [sample_book_json]
    sample_book (by rfl)
    (fun x hx => ⟨sample_book, by rw [List.mem_singleton.mp hx]; rfl⟩)

/-! ## Query builders (examples/books.rs, `get_recommendation` and
`get_recommendation_by_range`)

The network fetch of the `Book` and the execution of the command against the
engine are external collaborators; what is modelled is what the functions
decide and construct locally: the missing-embedding check and the exact
`FT.SEARCH` command (name plus ordered argument list) handed to `query`.
Returning `Except.error` models `anyhow::bail!`, which leaves the function
before any command is constructed or sent. -/

/-- One `.arg(...)` of the redis command builder: a string, an integer, or a
binary blob (the encoded vector bytes). -/
inductive Arg where
  | s (v : String)
  | i (v : Int)
  | b (v : List Nat)
  deriving DecidableEq

/-- A protocol command: name plus ordered argument list. -/
structure Command where
  name : String
  args : List Arg
  deriving DecidableEq

/-- `const INDEX_NAME: &str = "idx:books"`. -/
def INDEX_NAME : String := "idx:books"

/-- The argument list of the Top-K query (`get_recommendation`), verbatim
from the source's `.arg(...)` chain. -/
def topk_args (encoded : List Nat) : List Arg :=
  [.s INDEX_NAME, .s "*=>[KNN 5 @embedding $vec AS score]",
   .s "PARAMS", .i 2, .s "vec", .b encoded,
   .s "RETURN", .s "2", .s "title", .s "score",
   .s "SORTBY", .s "score",
   .s "LIMIT", .i 0, .i 5,
   .s "DIALECT", .s "2"]

/-- The argument list of the range query (`get_recommendation_by_range`),
verbatim from the source's `.arg(...)` chain (note `RETURN` takes the
integer `2` here, versus the string `"2"` in the Top-K variant). -/
def range_args (encoded : List Nat) : List Arg :=
  [.s INDEX_NAME,
   .s "@embedding:[VECTOR_RANGE $radius $vec]=>\x7b$YIELD_DISTANCE_AS: score\x7d",
   .s "PARAMS", .i 4, .s "radius", .i 3, .s "vec", .b encoded,
   .s "RETURN", .i 2, .s "title", .s "score",
   .s "SORTBY", .s "score",
   .s "LIMIT", .i 0, .i 5,
   .s "DIALECT", .s "2"]

/-- `fn get_recommendation`: if the fetched book has an embedding, encode it
and build the Top-K `FT.SEARCH` command; otherwise
`anyhow::bail!("No embedding found for book {}", key)` — no command is
constructed. -/
def get_recommendation (key : String) (book : Book) : Except String Command :=
  match book.embedding with
  | some embedding => .ok ⟨"FT.SEARCH", topk_args (encode embedding)⟩
  | none => .error ("No embedding found for book " ++ key)

/-- `fn get_recommendation_by_range`: as above with the range query. -/
def get_recommendation_by_range (key : String) (book : Book) :
    Except String Command :=
  match book.embedding with
  | some embedding => .ok ⟨"FT.SEARCH", range_args (encode embedding)⟩
  | none => .error ("No embedding found for book " ++ key)

/-- The `PARAMS` section of an `FT.SEARCH` argument list: the declared
token count and the that many following argument tokens. -/
def params_section : List Arg → Option (Int × List Arg)
  | .s "PARAMS" :: .i n :: rest => some (n, rest.take n.toNat)
  | _ :: rest => params_section rest
  | [] => none

/-- Adjacent tokens paired up as (parameter name, bound value). -/
def pair_up : List Arg → List (Arg × Arg)
  | a :: b :: rest => (a, b) :: pair_up rest
  | _ => []

/-- The bound parameters of a command's argument list. -/
def bound_params (args : List Arg) : List (Arg × Arg) :=
  match params_section args with
  | some p => pair_up p.2
  | none => []

/-- A book whose embedding is present but empty. -/
def empty_embedding_book : Book :=
  { sample_book with embedding := some [] }

/-- A book with a one-element embedding (the pattern of 1.0f32). -/
def unit_embedding_book : Book :=
  { sample_book with embedding := some [1065353216] }

/-- C7 counterexample, at a record whose embedding is `Some([])`: both
builders accept the empty vector and produce a command (with zero-length
vector bytes) instead of reporting an error — refuting "with an empty
encoded vector, the builder reports an error". -/
theorem c7_counterexample_empty_vector_accepted :
    get_recommendation "book:1" empty_embedding_book =
        .ok ⟨"FT.SEARCH", topk_args []⟩ ∧
      get_recommendation_by_range "book:1" empty_embedding_book =
        .ok ⟨"FT.SEARCH", range_args []⟩ :=
  ⟨rfl, rfl⟩

/-- C7 amended: the only validation either builder performs is that the
record's embedding is PRESENT.  Any present vector — including the empty
one — is encoded and yields the command unconditionally, and the missing
embedding is the only error either builder reports. -/
theorem c7_amended_only_presence_validated (key : String) (book : Book) :
    (∀ v, book.embedding = some v →
        get_recommendation key book = .ok ⟨"FT.SEARCH", topk_args (encode v)⟩ ∧
          get_recommendation_by_range key book =
            .ok ⟨"FT.SEARCH", range_args (encode v)⟩) ∧
      (book.embedding = none →
        get_recommendation key book =
            .error ("No embedding found for book " ++ key) ∧
          get_recommendation_by_range key book =
            .error ("No embedding found for book " ++ key)) := by
  constructor
  · intro v hv
    constructor <;>
      simp [get_recommendation, get_recommendation_by_range, hv]
  · intro hv
    constructor <;>
      simp [get_recommendation, get_recommendation_by_range, hv]

/-- Witness for the amended C7: the empty present vector yields the Top-K
command with zero vector bytes. -/
theorem c7_amended_only_presence_validated_witness :
    get_recommendation "book:1" empty_embedding_book =
      .ok ⟨"FT.SEARCH", topk_args (encode [])⟩ :=
  (((c7_amended_only_presence_validated "book:1" empty_embedding_book).1) [] rfl).1

/-- C8: when the record's embedding is absent, both query requests fail with
the missing-embedding error (`anyhow::bail!`), returning before any search
command is constructed or sent. -/
theorem c8_missing_embedding_fails (key : String) (book : Book)
    (h : book.embedding = none) :
    get_recommendation key book = .error ("No embedding found for book " ++ key) ∧
      get_recommendation_by_range key book =
        .error ("No embedding found for book " ++ key) := by
  constructor <;> simp [get_recommendation, get_recommendation_by_range, h]

/-- Witness for C8 at a concrete embedding-less book. -/
theorem c8_missing_embedding_fails_witness :
    get_recommendation "book:9" sample_book =
        .error ("No embedding found for book " ++ "book:9") ∧
      get_recommendation_by_range "book:9" sample_book =
        .error ("No embedding found for book " ++ "book:9") :=
  c8_missing_embedding_fails "book:9" sample_book rfl

/-- C9: for any embedding vector, the built Top-K command carries exactly
one bound parameter — `vec`, bound to the encoded vector bytes — with
declared `PARAMS` token count `2` (names and values both count, so the
declared count is exactly twice the number of bound parameters), a
contiguous `LIMIT 0 5` pair and `DIALECT 2`; the range command carries
exactly the two bound parameters `radius` (`3`) and `vec` with declared
count `4 = 2 * 2` and the same `RETURN`/`SORTBY`/`LIMIT`/`DIALECT`
conventions. -/
theorem c9_bound_params_and_conventions (v : List Nat) (key : String) (book : Book)
    (h : book.embedding = some v) :
    get_recommendation key book = .ok ⟨"FT.SEARCH", topk_args (encode v)⟩ ∧
    bound_params (topk_args (encode v)) = [(.s "vec", .b (encode v))] ∧
    params_section (topk_args (encode v)) = some (2, [.s "vec", .b (encode v)]) ∧
    (2 : Int) = 2 * (bound_params (topk_args (encode v))).length ∧
    (∃ pre post, topk_args (encode v) = pre ++ [.s "LIMIT", .i 0, .i 5] ++ post) ∧
    (∃ pre post, topk_args (encode v) = pre ++ [.s "DIALECT", .s "2"] ++ post) ∧
    (∃ pre post, topk_args (encode v) = pre ++ [.s "SORTBY", .s "score"] ++ post) ∧
    get_recommendation_by_range key book = .ok ⟨"FT.SEARCH", range_args (encode v)⟩ ∧
    bound_params (range_args (encode v)) =
      [(.s "radius", .i 3), (.s "vec", .b (encode v))] ∧
    params_section (range_args (encode v)) =
      some (4, [.s "radius", .i 3, .s "vec", .b (encode v)]) ∧
    (4 : Int) = 2 * (bound_params (range_args (encode v))).length ∧
    (∃ pre post, range_args (encode v) = pre ++ [.s "LIMIT", .i 0, .i 5] ++ post) ∧
    (∃ pre post, range_args (encode v) = pre ++ [.s "DIALECT", .s "2"] ++ post) ∧
    (∃ pre post, range_args (encode v) = pre ++ [.s "SORTBY", .s "score"] ++ post) ∧
    (∃ pre post, range_args (encode v) =
      pre ++ [.s "RETURN", .i 2, .s "title", .s "score"] ++ post) := by
  refine ⟨by simp [get_recommendation, h], rfl, rfl, rfl,
    ⟨[.s INDEX_NAME, .s "*=>[KNN 5 @embedding $vec AS score]",
      .s "PARAMS", .i 2, .s "vec", .b (encode v),
      .s "RETURN", .s "2", .s "title", .s "score",
      .s "SORTBY", .s "score"], [.s "DIALECT", .s "2"], rfl⟩,
    ⟨[.s INDEX_NAME, .s "*=>[KNN 5 @embedding $vec AS score]",
      .s "PARAMS", .i 2, .s "vec", .b (encode v),
      .s "RETURN", .s "2", .s "title", .s "score",
      .s "SORTBY", .s "score", .s "LIMIT", .i 0, .i 5], [], rfl⟩,
    ⟨[.s INDEX_NAME, .s "*=>[KNN 5 @embedding $vec AS score]",
      .s "PARAMS", .i 2, .s "vec", .b (encode v),
      .s "RETURN", .s "2", .s "title", .s "score"],
     [.s "LIMIT", .i 0, .i 5, .s "DIALECT", .s "2"], rfl⟩,
    by simp [get_recommendation_by_range, h], rfl, rfl, rfl,
    ⟨[.s INDEX_NAME,
      .s "@embedding:[VECTOR_RANGE $radius $vec]=>\x7b$YIELD_DISTANCE_AS: score\x7d",
      .s "PARAMS", .i 4, .s "radius", .i 3, .s "vec", .b (encode v),
      .s "RETURN", .i 2, .s "title", .s "score",
      .s "SORTBY", .s "score"], [.s "DIALECT", .s "2"], rfl⟩,
    ⟨[.s INDEX_NAME,
      .s "@embedding:[VECTOR_RANGE $radius $vec]=>\x7b$YIELD_DISTANCE_AS: score\x7d",
      .s "PARAMS", .i 4, .s "radius", .i 3, .s "vec", .b (encode v),
      .s "RETURN", .i 2, .s "title", .s "score",
      .s "SORTBY", .s "score", .s "LIMIT", .i 0, .i 5], [], rfl⟩,
    ⟨[.s INDEX_NAME,
      .s "@embedding:[VECTOR_RANGE $radius $vec]=>\x7b$YIELD_DISTANCE_AS: score\x7d",
      .s "PARAMS", .i 4, .s "radius", .i 3, .s "vec", .b (encode v),
      .s "RETURN", .i 2, .s "title", .s "score"],
     [.s "LIMIT", .i 0, .i 5, .s "DIALECT", .s "2"], rfl⟩,
    ⟨[.s INDEX_NAME,
      .s "@embedding:[VECTOR_RANGE $radius $vec]=>\x7b$YIELD_DISTANCE_AS: score\x7d",
      .s "PARAMS", .i 4, .s "radius", .i 3, .s "vec", .b (encode v)],
     [.s "SORTBY", .s "score", .s "LIMIT", .i 0, .i 5, .s "DIALECT", .s "2"], rfl⟩⟩

/-- Witness for C9 at a concrete one-element embedding. -/
theorem c9_bound_params_and_conventions_witness :
    get_recommendation "book:26415" unit_embedding_book =
        .ok ⟨"FT.SEARCH", topk_args (encode [1065353216])⟩ ∧
      bound_params (topk_args (encode [1065353216])) =
        [(.s "vec", .b (encode [1065353216]))] :=
  ⟨(c9_bound_params_and_conventions [1065353216] "book:26415"
      unit_embedding_book rfl).1,
   (c9_bound_params_and_conventions [1065353216] "book:26415"
      unit_embedding_book rfl).2.1⟩
